import Mathlib

/-!
Shallow embedding of `src/server.py` (mcp-rosreestr): a JSON value type
mirroring Python dict/list/scalar payloads, an environment recording the
outcome each external collaborator would produce (the IP-geolocation HTTP
service, the remote cadastral HTTP API, the `rosreestr2coord` library), and
Lean functions translating `is_russian_ip`, `get_area_via_api`,
`get_area_direct`, `get_area` and the `call_tool` dispatcher.  Each function
also returns the ordered list of collaborator calls it performs, so that
claims about short-circuiting and "no outbound request" are statable.
-/

/-- JSON-like values as handled by the Python code (dicts are association
lists; numbers are modelled as integers, the only numbers the code itself
constructs). -/
inductive Json where
  | null
  | bool (b : Bool)
  | num (n : Int)
  | str (s : String)
  | arr (xs : List Json)
  | obj (kvs : List (String × Json))

/-- Python truthiness (`if x:`) on JSON values: `None`, `False`, `0`, `""`,
`[]`, `{}` are falsy, everything else truthy. -/
def truthy : Json → Bool
  | .null => false
  | .bool b => b
  | .num n => n != 0
  | .str s => s != ""
  | .arr xs => !xs.isEmpty
  | .obj kvs => !kvs.isEmpty

/-- Python `d.get(k)` on a dict represented as an association list: the value
of the first binding of `k`, or `None` when absent (Python dicts have unique
keys, so first-match lookup is exact). -/
def jget : List (String × Json) → String → Option Json
  | [], _ => none
  | (k₀, v) :: rest, k => if k₀ = k then some v else jget rest k

/-- Python `d.get(k, default)`. -/
def jgetD (kvs : List (String × Json)) (k : String) (dflt : Json) : Json :=
  (jget kvs k).getD dflt

/-- Python `r.get(k)` applied to a JSON value known to be a dict (every result the
batch loop inspects is built as a dict); yields `None`-as-`null` when the key
is absent, and `null` on a non-dict (where Python would raise). -/
def jsget (j : Json) (k : String) : Json :=
  match j with
  | .obj kvs => jgetD kvs k .null
  | _ => .null

/-- Python `str.upper()` restricted to ASCII, the only case the code exercises: the
result is only ever compared against the two-letter code `"RU"`, and the sole
characters whose uppercase form is `R` or `U` are ASCII `r` and `u`. -/
def pyUpper (s : String) : String := ⟨s.data.map Char.toUpper⟩

/-- Outcome of the one outbound geolocation call
(`requests.get(RU_IP_CHECK_URL, timeout=5)` followed by `response.json()`):
either some exception was raised (transport failure, timeout, malformed
body), carrying `str(e)`, or a parsed JSON document. -/
inductive GeoOutcome where
  | fail (msg : String)
  | ok (data : Json)

/-- Outcome of the remote cadastral API call (`requests.get(...)`,
`raise_for_status()`, `response.json()`): a `RequestException` — transport
error, timeout, non-2xx status or malformed body — carrying `str(e)`, or the
parsed structured JSON body (an object, per the collaborator contract and the
function's `-> dict` annotation). -/
inductive ApiOutcome where
  | reqError (msg : String)
  | ok (body : List (String × Json))

/-- Outcome of the direct-library path: the `rosreestr2coord` import fails
(`ImportError`), the `Area(...)` call raises some exception carrying
`str(e)`, or it returns an object whose `feature` attribute is the given
value (possibly `null`/falsy when nothing was found). -/
inductive LibOutcome where
  | notInstalled
  | exn (msg : String)
  | ok (feature : Json)

/-- The process environment and the behaviour of the three external
collaborators, fixed per invocation.  `apiToken` is
`os.environ.get('ROSREESTR_API_TOKEN', '')`, so an unset token is the empty
string.  The API and library outcomes are functions of the arguments passed
through verbatim (`cadastral_number`, `area_type`). -/
structure Env where
  apiToken : String
  geo : GeoOutcome
  api : Json → Json → ApiOutcome
  lib : Json → Json → LibOutcome

/-- One collaborator call, as recorded in execution order. -/
inductive Call where
  | geoCall
  | apiCall (cadastral areaType : Json)
  | libCall (cadastral areaType : Json)

/-- Whether a call is a geolocation-service call. -/
def Call.isGeo : Call → Bool
  | .geoCall => true
  | _ => false

/-- Whether a call is a direct-library call. -/
def Call.isLib : Call → Bool
  | .libCall _ _ => true
  | _ => false

/-- `{'error': msg}`. -/
def errObj (msg : String) : Json := .obj [("error", .str msg)]

/-- Function `is_russian_ip` (src/server.py:25-33): `True` iff the geolocation call
succeeds and `data.get('country_code', '').upper() == 'RU'`; every exception
— including `.get` on a non-dict body or `.upper()` on a non-string value —
is caught and yields `False`. -/
def is_russian_ip (geo : GeoOutcome) : Bool :=
  match geo with
  | .fail _ => false
  | .ok data =>
    match data with
    | .obj kvs =>
      match jgetD kvs "country_code" (.str "") with
      | .str c => pyUpper c = "RU"
      | _ => false
    | _ => false

/-- Function `get_area_via_api` (src/server.py:36-53): with an unset (empty) token,
returns the configured-error dict with no request issued; otherwise performs
the one HTTP GET and returns its parsed body, or `{'error': str(e)}` on any
`RequestException`. -/
def get_area_via_api (env : Env) (cadastral_number areaType : Json) :
    Json × List Call :=
  if env.apiToken = "" then
    (errObj "ROSREESTR_API_TOKEN not configured", [])
  else
    match env.api cadastral_number areaType with
    | .ok body => (.obj body, [.apiCall cadastral_number areaType])
    | .reqError msg => (errObj msg, [.apiCall cadastral_number areaType])

/-- Function `get_area_direct` (src/server.py:56-81): `ImportError` yields the
not-installed error with no library call; otherwise the `Area(...)` call is
made, and a truthy `feature` is wrapped as
`{'success': True, 'data': {'features': [feature]}}`, a falsy one yields the
no-data error, and any other exception yields `{'error': str(e)}`. -/
def get_area_direct (env : Env) (cadastral_number areaType : Json) :
    Json × List Call :=
  match env.lib cadastral_number areaType with
  | .notInstalled => (errObj "rosreestr2coord not installed", [])
  | .exn msg => (errObj msg, [.libCall cadastral_number areaType])
  | .ok feature =>
    if truthy feature then
      (.obj [("success", .bool true),
             ("data", .obj [("features", .arr [feature])])],
       [.libCall cadastral_number areaType])
    else
      (errObj "No data found for this cadastral number",
       [.libCall cadastral_number areaType])

/-- Function `get_area` (src/server.py:84-94):
`use_api = force_api or not is_russian_ip()` — Python `or` short-circuits,
so the geolocation call happens exactly when `force_api` is false — then the
chosen strategy is invoked. -/
def get_area (env : Env) (cadastral_number areaType : Json)
    (force_api : Bool) : Json × List Call :=
  if force_api then
    get_area_via_api env cadastral_number areaType
  else if is_russian_ip env.geo then
    let r := get_area_direct env cadastral_number areaType
    (r.fst, .geoCall :: r.snd)
  else
    let r := get_area_via_api env cadastral_number areaType
    (r.fst, .geoCall :: r.snd)

/-- The `batch_get_cadastral_coordinates` body after validation
(src/server.py:188-206): one sequential `get_area` call per identifier,
results collected in input order; features gathered from results with a
truthy `success` and a truthy `geojson`; summary dict with `total`,
`success_count` (count of truthy `success`), `results` and the
`FeatureCollection`. -/
def batch_run (env : Env) (cns : List Json) (area_type : Json) :
    Json × List Call :=
  let results := cns.map fun cn => (get_area env cn area_type false).fst
  let features := results.filterMap fun r =>
    if truthy (jsget r "success") && truthy (jsget r "geojson") then
      some (jsget r "geojson")
    else none
  (.obj [("total", .num cns.length),
         ("success_count", .num (results.countP fun r => truthy (jsget r "success"))),
         ("results", .arr results),
         ("geojson", .obj [("type", .str "FeatureCollection"),
                           ("features", .arr features)])],
   cns.flatMap fun cn => (get_area env cn area_type false).snd)

/-- The elements Python's `for cn in cadastral_numbers` iterates over.  The
tool's declared inputSchema types `cadastral_numbers` as an array of strings,
so this is the element list of an array; non-array values lie outside the
declared argument contract. -/
def Json.elems : Json → List Json
  | .arr xs => xs
  | _ => []

/-- The `check_ip_location` branch of `call_tool` (src/server.py:213-228):
on success, a dict with `ip`, `country`, `country_code`, `city`, the
region-membership flag `is_russian` and `will_use_api := not is_russian`;
every exception inside the `try` — the transport call, `.get` on a non-dict
body, `.upper()` on a non-string `country_code` — is caught and yields
`{"error": str(e)}` (the message text of the latter two is
interpreter-determined; a fixed stand-in is used, nothing below depends on
it). -/
def check_ip_location (geo : GeoOutcome) : Json :=
  match geo with
  | .fail msg => errObj msg
  | .ok data =>
    match data with
    | .obj kvs =>
      match jgetD kvs "country_code" (.str "") with
      | .str cc =>
        let is_ru : Bool := pyUpper cc = "RU"
        .obj [("ip", jgetD kvs "ip" .null),
              ("country", jgetD kvs "country_name" .null),
              ("country_code", jgetD kvs "country_code" .null),
              ("city", jgetD kvs "city" .null),
              ("is_russian", .bool is_ru),
              ("will_use_api", .bool (!is_ru))]
      | _ => errObj "AttributeError: upper"
    | _ => errObj "AttributeError: get"

/-- Function `call_tool` (src/server.py:157-239).  The returned JSON document is the
payload serialized into the single `TextContent` by `json.dumps`; the trace
lists the collaborator calls in order.  Missing arguments take the coded
defaults (`""`, `[]`, `1`); a falsy required argument yields the validation
error before any collaborator is touched. -/
def call_tool (env : Env) (name : String)
    (arguments : List (String × Json)) : Json × List Call :=
  if name = "get_cadastral_coordinates" then
    let cadastral_number := jgetD arguments "cadastral_number" (.str "")
    let area_type := jgetD arguments "area_type" (.num 1)
    if !truthy cadastral_number then
      (errObj "cadastral_number is required", [])
    else
      get_area env cadastral_number area_type false
  else if name = "batch_get_cadastral_coordinates" then
    let cadastral_numbers := jgetD arguments "cadastral_numbers" (.arr [])
    let area_type := jgetD arguments "area_type" (.num 1)
    if !truthy cadastral_numbers then
      (errObj "cadastral_numbers array is required", [])
    else
      batch_run env cadastral_numbers.elems area_type
  else if name = "check_ip_location" then
    (check_ip_location env.geo, [.geoCall])
  else
    (errObj ("Unknown tool: " ++ name), [])

/-! Spec-side predicates and sample environments used in the statements and
their concrete instantiations. -/

/-- The geolocation lookup succeeded and reported a `country_code` that,
case-normalized, equals the designated two-letter code `"RU"` (the spec's
region-membership condition; its negation covers a failed or timed-out
lookup, a missing or non-string code, and a differing code). -/
def geoSaysDesignated (geo : GeoOutcome) : Bool :=
  match geo with
  | .fail _ => false
  | .ok data =>
    match data with
    | .obj kvs =>
      match jgetD kvs "country_code" (.str "") with
      | .str c => pyUpper c = "RU"
      | _ => false
    | _ => false

/-- The payload is a structured error value: a dict whose `error` key holds a
message string. -/
def isErrorValue (j : Json) : Bool :=
  match j with
  | .obj kvs =>
    match jget kvs "error" with
    | some (.str _) => true
    | _ => false
  | _ => false

/-- The JSON value is a dict containing the given key. -/
def hasKey (j : Json) (k : String) : Bool :=
  match j with
  | .obj kvs => (jget kvs k).isSome
  | _ => false

/-- The JSON value is the boolean `true` (not merely Python-truthy). -/
def isBoolTrue : Json → Bool
  | .bool b => b
  | _ => false

/-- Sample environment: unset token, failed (timed-out) geolocation, failing
API transport, library not installed. -/
def envDown : Env :=
  { apiToken := ""
    geo := .fail "HTTPSConnectionPool: Read timed out"
    api := fun _ _ => .reqError "connection error"
    lib := fun _ _ => .notInstalled }

/-- Sample environment: token configured, geolocation reporting Russia
(lower-case code), library producing a fixed feature for identifier
`"full"`, a `None` feature for `"empty"`, and not installed otherwise. -/
def envRu : Env :=
  { apiToken := "token-value"
    geo := .ok (.obj [("country_code", .str "ru"), ("ip", .str "5.18.0.1"),
                      ("country_name", .str "Russia"), ("city", .str "Moscow")])
    api := fun _ _ => .reqError "connection error"
    lib := fun cn _ =>
      match cn with
      | .str "full" => .ok (.obj [("type", .str "Feature")])
      | .str "empty" => .ok .null
      | _ => .notInstalled }

/-- Sample environment: token configured, failed geolocation (every request
routes to the remote API), and an API returning `{"success": "yes"}` for
identifier `"A"` and `{"success": true, "geojson": []}` otherwise. -/
def envOdd : Env :=
  { apiToken := "token-value"
    geo := .fail "timeout"
    api := fun cn _ =>
      match cn with
      | .str "A" => .ok [("success", .str "yes")]
      | _ => .ok [("success", .bool true), ("geojson", .arr [])]
    lib := fun _ _ => .notInstalled }

/-! Helper lemmas shared by several of the results below. -/

/-- The two region checks agree: `is_russian_ip` computes exactly the
designated-region predicate. -/
theorem is_russian_ip_eq_geoSaysDesignated (geo : GeoOutcome) :
    is_russian_ip geo = geoSaysDesignated geo := rfl

/-- With a non-empty identifier list, the batch branch of `call_tool` reduces
to `batch_run` over the list. -/
theorem call_tool_batch_eq (env : Env) (cns : List Json) (aty : Json)
    (h : cns ≠ []) :
    call_tool env "batch_get_cadastral_coordinates"
      [("cadastral_numbers", .arr cns), ("area_type", aty)] =
      batch_run env cns aty := by
  have hne : cns.isEmpty = false := by simpa using h
  simp [call_tool, jgetD, jget, truthy, hne, Json.elems]

/-- Every result of `get_area_via_api` is a dict. -/
theorem get_area_via_api_obj (env : Env) (cn aty : Json) :
    ∃ kvs, (get_area_via_api env cn aty).fst = .obj kvs := by
  unfold get_area_via_api
  by_cases h : env.apiToken = "" <;> simp [h, errObj]
  cases env.api cn aty <;> simp [errObj]

/-- Every result of `get_area_direct` is a dict. -/
theorem get_area_direct_obj (env : Env) (cn aty : Json) :
    ∃ kvs, (get_area_direct env cn aty).fst = .obj kvs := by
  unfold get_area_direct
  cases env.lib cn aty with
  | notInstalled => exact ⟨_, rfl⟩
  | exn msg => exact ⟨_, rfl⟩
  | ok f => by_cases h : truthy f <;> simp [h, errObj]

/-- Every result of `get_area` is a dict. -/
theorem get_area_obj (env : Env) (cn aty : Json) (force : Bool) :
    ∃ kvs, (get_area env cn aty force).fst = .obj kvs := by
  unfold get_area
  by_cases hf : force <;> by_cases hr : is_russian_ip env.geo <;>
    simp [hf, hr, get_area_via_api_obj, get_area_direct_obj]

/-- No result of `get_area_direct` carries a truthy `geojson` field. -/
theorem get_area_direct_geojson_falsy (env : Env) (cn aty : Json) :
    truthy (jsget (get_area_direct env cn aty).fst "geojson") = false := by
  unfold get_area_direct
  cases env.lib cn aty with
  | notInstalled => rfl
  | exn msg => rfl
  | ok f =>
    dsimp only
    by_cases h : truthy f
    · rw [if_pos h]; rfl
    · rw [if_neg h]; rfl

/-- Counting helper: the guarded `filterMap` collecting `m x` exactly when
`p x && g x` holds produces as many elements as there are list members
satisfying `p x && g x`. -/
theorem length_filterMap_guard {α β : Type} (p g : α → Bool) (m : α → β)
    (l : List α) :
    (l.filterMap fun x => if p x && g x then some (m x) else none).length =
      l.countP fun x => p x && g x := by
  induction l with
  | nil => rfl
  | cons a t ih =>
    rw [List.filterMap_cons, List.countP_cons]
    by_cases h : (p a && g a) = true
    · rw [if_pos h, if_pos h]
      dsimp only
      rw [List.length_cons, ih]
    · rw [if_neg h, if_neg h]
      dsimp only
      rw [ih, Nat.add_zero]

/-- Counting helper: strengthening a count predicate by a conjunct can only
lower the count. -/
theorem countP_and_le {α : Type} (p g : α → Bool) (l : List α) :
    (l.countP fun x => p x && g x) ≤ l.countP p := by
  induction l with
  | nil => exact Nat.le_refl 0
  | cons a t ih =>
    by_cases hp : p a = true <;> by_cases hg : g a = true <;>
      simp [List.countP_cons, hp, hg] <;> omega

/-- Counting helper: the strengthened count coincides with the original one
exactly when the extra conjunct holds on every member satisfying the
original predicate. -/
theorem countP_and_eq_iff {α : Type} (p g : α → Bool) (l : List α) :
    ((l.countP fun x => p x && g x) = l.countP p ↔
      ∀ x ∈ l, p x = true → g x = true) := by
  induction l with
  | nil => simp
  | cons a t ih =>
    have hle := countP_and_le p g t
    by_cases hp : p a = true <;> by_cases hg : g a = true <;>
      simp [List.countP_cons, hp, hg, ← ih] <;> omega

/-! Results for the frozen claims. -/

/-- C1: for every identifier and area type, when the geolocation lookup
fails, times out, or does not resolve to the designated case-normalized
country code, `is_russian_ip` returns `false`, and `get_area` with
`force_api = false` returns the RemoteApi result (`get_area_via_api`) after
the one geolocation call, performing no direct-library call. -/
theorem c1_fail_open_selects_remote (env : Env) (cn aty : Json)
    (h : geoSaysDesignated env.geo = false) :
    is_russian_ip env.geo = false ∧
    get_area env cn aty false =
      ((get_area_via_api env cn aty).fst,
       .geoCall :: (get_area_via_api env cn aty).snd) ∧
    ((get_area env cn aty false).snd.all fun c => !c.isLib) = true := by
  have hr : is_russian_ip env.geo = false := by
    rw [is_russian_ip_eq_geoSaysDesignated]; exact h
  have hg : get_area env cn aty false =
      ((get_area_via_api env cn aty).fst,
       .geoCall :: (get_area_via_api env cn aty).snd) := by
    unfold get_area
    rw [if_neg (by simp), if_neg (by simp [hr])]
  refine ⟨hr, hg, ?_⟩
  rw [hg]
  unfold get_area_via_api
  by_cases ht : env.apiToken = ""
  · rw [if_pos ht]; rfl
  · rw [if_neg ht]
    cases env.api cn aty <;> rfl

/-- C1 witness: a timed-out geolocation lookup in a concrete environment. -/
theorem c1_fail_open_selects_remote_witness :
    geoSaysDesignated envDown.geo = false ∧
    (is_russian_ip envDown.geo = false ∧
     get_area envDown (.str "12:05:0101001:1") (.num 1) false =
       ((get_area_via_api envDown (.str "12:05:0101001:1") (.num 1)).fst,
        .geoCall ::
          (get_area_via_api envDown (.str "12:05:0101001:1") (.num 1)).snd) ∧
     ((get_area envDown (.str "12:05:0101001:1") (.num 1) false).snd.all
        fun c => !c.isLib) = true) :=
  ⟨rfl, c1_fail_open_selects_remote envDown (.str "12:05:0101001:1") (.num 1) rfl⟩

/-- C2: for every identifier and area type, `get_area` with
`force_api = true` coincides with `get_area_via_api` — result and call trace
alike — and its trace contains no geolocation call: the `or` in
`use_api = force_api or not is_russian_ip()` short-circuits, so the
geolocation collaborator is never invoked. -/
theorem c2_force_remote_short_circuits_geo (env : Env) (cn aty : Json) :
    get_area env cn aty true = get_area_via_api env cn aty ∧
    ((get_area env cn aty true).snd.all fun c => !c.isGeo) = true := by
  refine ⟨rfl, ?_⟩
  show ((get_area_via_api env cn aty).snd.all fun c => !c.isGeo) = true
  unfold get_area_via_api
  by_cases ht : env.apiToken = ""
  · rw [if_pos ht]; rfl
  · rw [if_neg ht]
    cases env.api cn aty <;> rfl

/-- C5: for every identifier and area type, with an unset (empty) bearer
token `get_area_via_api` returns the configured-error dict and an empty
call trace: no outbound HTTP request is issued. -/
theorem c5_unset_token_no_request (env : Env) (cn aty : Json)
    (h : env.apiToken = "") :
    get_area_via_api env cn aty =
      (errObj "ROSREESTR_API_TOKEN not configured", []) := by
  unfold get_area_via_api
  rw [if_pos h]

/-- C5 witness: the spec's scenario identifier with the token unset. -/
theorem c5_unset_token_no_request_witness :
    envDown.apiToken = "" ∧
    get_area_via_api envDown (.str "12:05:0101001:1") (.num 1) =
      (errObj "ROSREESTR_API_TOKEN not configured", []) :=
  ⟨rfl, c5_unset_token_no_request envDown (.str "12:05:0101001:1") (.num 1) rfl⟩

/-- C3: for every non-empty identifier list, the batch tool performs one
`get_area` (Router) call per identifier, strictly sequentially — the call
trace is the in-order concatenation of the per-identifier traces — and its
payload reports `total = N` and a `results` array holding the N per-identifier
results in input order. -/
theorem c3_batch_sequential_in_order (env : Env) (cns : List Json)
    (aty : Json) (h : cns ≠ []) :
    jsget (call_tool env "batch_get_cadastral_coordinates"
      [("cadastral_numbers", .arr cns), ("area_type", aty)]).fst "total" =
      .num cns.length ∧
    jsget (call_tool env "batch_get_cadastral_coordinates"
      [("cadastral_numbers", .arr cns), ("area_type", aty)]).fst "results" =
      .arr (cns.map fun cn => (get_area env cn aty false).fst) ∧
    (call_tool env "batch_get_cadastral_coordinates"
      [("cadastral_numbers", .arr cns), ("area_type", aty)]).snd =
      cns.flatMap fun cn => (get_area env cn aty false).snd := by
  rw [call_tool_batch_eq env cns aty h]
  exact ⟨rfl, rfl, rfl⟩

/-- C3 witness: a two-identifier batch in the designated-region environment,
evaluated: `total = 2`, the two results in input order, and a trace of one
geolocation plus one library call per identifier, in sequence. -/
theorem c3_batch_sequential_in_order_witness :
    ([Json.str "full", Json.str "empty"] ≠ ([] : List Json)) ∧
    (jsget (call_tool envRu "batch_get_cadastral_coordinates"
        [("cadastral_numbers", .arr [.str "full", .str "empty"]),
         ("area_type", .num 1)]).fst "total" = .num 2 ∧
     jsget (call_tool envRu "batch_get_cadastral_coordinates"
        [("cadastral_numbers", .arr [.str "full", .str "empty"]),
         ("area_type", .num 1)]).fst "results" =
       .arr [.obj [("success", .bool true),
                   ("data", .obj [("features",
                      .arr [.obj [("type", .str "Feature")]])])],
             errObj "No data found for this cadastral number"] ∧
     (call_tool envRu "batch_get_cadastral_coordinates"
        [("cadastral_numbers", .arr [.str "full", .str "empty"]),
         ("area_type", .num 1)]).snd =
       [.geoCall, .libCall (.str "full") (.num 1),
        .geoCall, .libCall (.str "empty") (.num 1)]) :=
  ⟨by simp,
   c3_batch_sequential_in_order envRu [.str "full", .str "empty"] (.num 1)
     (by simp)⟩

/-- C4 counterexample: in `envOdd`, batching `["A", "B"]` routes both
identifiers to the remote API, which answers `{"success": "yes"}` for `"A"`
and `{"success": true, "geojson": []}` for `"B"`.  The payload reports
`success_count = 2`, yet only one result's `success` field is the boolean
`true`, so `success_count` does not equal the number of results whose
`success` field is true; and although the sole boolean-`true` result carries
a `geojson` key, the aggregated FeatureCollection is empty, because the code
tests Python truthiness (the empty list `[]` is falsy), not field presence. -/
theorem c4_counterexample :
    jsget (call_tool envOdd "batch_get_cadastral_coordinates"
      [("cadastral_numbers", .arr [.str "A", .str "B"])]).fst
      "success_count" = .num 2 ∧
    ((jsget (call_tool envOdd "batch_get_cadastral_coordinates"
      [("cadastral_numbers", .arr [.str "A", .str "B"])]).fst
      "results").elems.countP fun r => isBoolTrue (jsget r "success")) = 1 ∧
    ((jsget (call_tool envOdd "batch_get_cadastral_coordinates"
      [("cadastral_numbers", .arr [.str "A", .str "B"])]).fst
      "results").elems.all fun r =>
        !(isBoolTrue (jsget r "success")) || hasKey r "geojson") = true ∧
    (jsget (jsget (call_tool envOdd "batch_get_cadastral_coordinates"
      [("cadastral_numbers", .arr [.str "A", .str "B"])]).fst
      "geojson") "features").elems.length = 0 :=
  ⟨rfl, rfl, rfl, rfl⟩

/-- C4 (amended): for every batch run, `success_count` equals the number of
results whose `success` field is truthy; the FeatureCollection holds exactly
the `geojson` values of results with a truthy `success` and a truthy
`geojson`, so its size is at most `success_count`, with equality exactly
when every truthy-`success` result also carries a truthy `geojson` value;
results lacking either are excluded from the geometry collection but still
counted in `total` and present, in input order, in `results`. -/
theorem c4_batch_aggregation_truthy (env : Env) (cns : List Json)
    (aty : Json) :
    jsget (batch_run env cns aty).fst "success_count" =
      .num ((cns.map fun cn => (get_area env cn aty false).fst).countP
        fun r => truthy (jsget r "success")) ∧
    jsget (batch_run env cns aty).fst "total" = .num cns.length ∧
    jsget (batch_run env cns aty).fst "results" =
      .arr (cns.map fun cn => (get_area env cn aty false).fst) ∧
    jsget (jsget (batch_run env cns aty).fst "geojson") "features" =
      .arr ((cns.map fun cn => (get_area env cn aty false).fst).filterMap
        fun r =>
          if truthy (jsget r "success") && truthy (jsget r "geojson") then
            some (jsget r "geojson")
          else none) ∧
    (jsget (jsget (batch_run env cns aty).fst "geojson") "features").elems.length ≤
      ((cns.map fun cn => (get_area env cn aty false).fst).countP
        fun r => truthy (jsget r "success")) ∧
    ((jsget (jsget (batch_run env cns aty).fst "geojson") "features").elems.length =
       ((cns.map fun cn => (get_area env cn aty false).fst).countP
         fun r => truthy (jsget r "success")) ↔
     ∀ r ∈ cns.map fun cn => (get_area env cn aty false).fst,
       truthy (jsget r "success") = true → truthy (jsget r "geojson") = true) := by
  have hlen :
      (jsget (jsget (batch_run env cns aty).fst "geojson") "features").elems.length =
        ((cns.map fun cn => (get_area env cn aty false).fst).countP
          fun r => truthy (jsget r "success") && truthy (jsget r "geojson")) := by
    show ((cns.map fun cn => (get_area env cn aty false).fst).filterMap
        fun r =>
          if truthy (jsget r "success") && truthy (jsget r "geojson") then
            some (jsget r "geojson")
          else none).length = _
    exact length_filterMap_guard _ _ _ _
  refine ⟨rfl, rfl, rfl, rfl, ?_, ?_⟩
  · rw [hlen]
    exact countP_and_le _ _ _
  · rw [hlen]
    exact countP_and_eq_iff _ _ _

/-- Every RemoteApi result is either a structured error value or the API's
own parsed body. -/
theorem get_area_via_api_structured (env : Env) (cn aty : Json) :
    isErrorValue (get_area_via_api env cn aty).fst = true ∨
    ∃ body, env.api cn aty = .ok body ∧
      (get_area_via_api env cn aty).fst = .obj body := by
  unfold get_area_via_api
  by_cases ht : env.apiToken = ""
  · rw [if_pos ht]
    exact .inl rfl
  · rw [if_neg ht]
    cases ha : env.api cn aty with
    | reqError msg => exact .inl rfl
    | ok body => exact .inr ⟨body, rfl, rfl⟩

/-- Every DirectLibrary result is either a structured error value or the
success wrapper around a truthy feature. -/
theorem get_area_direct_structured (env : Env) (cn aty : Json) :
    isErrorValue (get_area_direct env cn aty).fst = true ∨
    ∃ f, env.lib cn aty = .ok f ∧ truthy f = true ∧
      (get_area_direct env cn aty).fst =
        .obj [("success", .bool true),
              ("data", .obj [("features", .arr [f])])] := by
  unfold get_area_direct
  cases hl : env.lib cn aty with
  | notInstalled => exact .inl rfl
  | exn msg => exact .inl rfl
  | ok f =>
    dsimp only
    by_cases h : truthy f = true
    · rw [if_pos h]
      exact .inr ⟨f, rfl, h, rfl⟩
    · rw [if_neg h]
      exact .inl rfl

/-- Every `check_ip_location` payload is a dict. -/
theorem check_ip_location_obj (geo : GeoOutcome) :
    ∃ kvs, check_ip_location geo = .obj kvs := by
  cases geo with
  | fail msg => exact ⟨_, rfl⟩
  | ok data =>
    cases data with
    | obj kvs =>
      unfold check_ip_location
      dsimp only
      cases hc : jgetD kvs "country_code" (.str "") with
      | null => exact ⟨_, rfl⟩
      | bool b => exact ⟨_, rfl⟩
      | num n => exact ⟨_, rfl⟩
      | str cc => exact ⟨_, rfl⟩
      | arr xs => exact ⟨_, rfl⟩
      | obj kvs₂ => exact ⟨_, rfl⟩
    | null => exact ⟨_, rfl⟩
    | bool b => exact ⟨_, rfl⟩
    | num n => exact ⟨_, rfl⟩
    | str s => exact ⟨_, rfl⟩
    | arr xs => exact ⟨_, rfl⟩

/-- C6: totality with respect to failure.  For every environment — any
transport exception, timeout, non-2xx status, malformed body, or library
exception is some `Env` — the Router result is a structured error value, the
API's own body, or the direct success wrapper (there is no exception channel:
every collaborator failure constructor maps to a returned value); the
GeoLocator payload is a structured error value or carries the derived
`will_use_api` flag; and every tool invocation, whatever its name and
arguments, produces a dict payload for serialization. -/
theorem c6_total_structured_failure (env : Env) (cn aty : Json)
    (force : Bool) (name : String) (arguments : List (String × Json)) :
    (isErrorValue (get_area env cn aty force).fst = true ∨
     (∃ body, env.api cn aty = .ok body ∧
        (get_area env cn aty force).fst = .obj body) ∨
     (∃ f, env.lib cn aty = .ok f ∧ truthy f = true ∧
        (get_area env cn aty force).fst =
          .obj [("success", .bool true),
                ("data", .obj [("features", .arr [f])])])) ∧
    (isErrorValue (check_ip_location env.geo) = true ∨
     jsget (check_ip_location env.geo) "will_use_api" =
       .bool (!is_russian_ip env.geo)) ∧
    (∃ kvs, (call_tool env name arguments).fst = .obj kvs) := by
  refine ⟨?_, ?_, ?_⟩
  · have happly : (get_area env cn aty force).fst =
        (get_area_via_api env cn aty).fst ∨
        (get_area env cn aty force).fst = (get_area_direct env cn aty).fst := by
      unfold get_area
      cases force with
      | true => exact .inl rfl
      | false =>
        by_cases hr : is_russian_ip env.geo = true
        · rw [if_neg (by simp), if_pos hr]
          exact .inr rfl
        · rw [if_neg (by simp), if_neg hr]
          exact .inl rfl
    rcases happly with he | he
    · rw [he]
      rcases get_area_via_api_structured env cn aty with h | ⟨body, hb, hfst⟩
      · exact .inl h
      · exact .inr (.inl ⟨body, hb, hfst⟩)
    · rw [he]
      rcases get_area_direct_structured env cn aty with h | ⟨f, hl, ht, hfst⟩
      · exact .inl h
      · exact .inr (.inr ⟨f, hl, ht, hfst⟩)
  · cases env.geo with
    | fail msg => exact .inl rfl
    | ok data =>
      cases data with
      | obj kvs =>
        unfold check_ip_location is_russian_ip
        dsimp only
        cases hc : jgetD kvs "country_code" (.str "") with
        | str cc => exact .inr rfl
        | null => exact .inl rfl
        | bool b => exact .inl rfl
        | num n => exact .inl rfl
        | arr xs => exact .inl rfl
        | obj kvs₂ => exact .inl rfl
      | null => exact .inl rfl
      | bool b => exact .inl rfl
      | num n => exact .inl rfl
      | str s => exact .inl rfl
      | arr xs => exact .inl rfl
  · unfold call_tool
    by_cases h1 : name = "get_cadastral_coordinates"
    · rw [if_pos h1]
      by_cases h2 :
          (!truthy (jgetD arguments "cadastral_number" (.str ""))) = true
      · rw [if_pos h2]
        exact ⟨_, rfl⟩
      · rw [if_neg h2]
        exact get_area_obj env _ _ false
    · rw [if_neg h1]
      by_cases h2 : name = "batch_get_cadastral_coordinates"
      · rw [if_pos h2]
        by_cases h3 :
            (!truthy (jgetD arguments "cadastral_numbers" (.arr []))) = true
        · rw [if_pos h3]
          exact ⟨_, rfl⟩
        · rw [if_neg h3]
          exact ⟨_, rfl⟩
      · rw [if_neg h2]
        by_cases h3 : name = "check_ip_location"
        · rw [if_pos h3]
          exact check_ip_location_obj env.geo
        · rw [if_neg h3]
          exact ⟨_, rfl⟩

/-- C7: the three DirectLibrary result shapes.  A truthy feature is returned
exactly as `{success: true, data: {features: [feature]}}`; a library call
yielding no feature produces the no-data error FetchResult; a missing
library produces the not-installed error FetchResult. -/
theorem c7_direct_result_shapes (env : Env) (cn aty : Json) :
    (∀ f, env.lib cn aty = .ok f → truthy f = true →
      (get_area_direct env cn aty).fst =
        .obj [("success", .bool true),
              ("data", .obj [("features", .arr [f])])]) ∧
    (∀ f, env.lib cn aty = .ok f → truthy f = false →
      (get_area_direct env cn aty).fst =
        errObj "No data found for this cadastral number") ∧
    (env.lib cn aty = .notInstalled →
      (get_area_direct env cn aty).fst =
        errObj "rosreestr2coord not installed") := by
  refine ⟨?_, ?_, ?_⟩
  · intro f hl ht
    unfold get_area_direct
    rw [hl]
    dsimp only
    rw [if_pos ht]
  · intro f hl ht
    unfold get_area_direct
    rw [hl]
    dsimp only
    rw [if_neg (by simp [ht])]
  · intro hl
    unfold get_area_direct
    rw [hl]

/-- C7 witness: the designated-region environment, where the library yields
a feature for `"full"`, none for `"empty"`, and is missing otherwise. -/
theorem c7_direct_result_shapes_witness :
    envRu.lib (.str "full") (.num 1) = .ok (.obj [("type", .str "Feature")]) ∧
    truthy (Json.obj [("type", Json.str "Feature")]) = true ∧
    envRu.lib (.str "empty") (.num 1) = .ok .null ∧
    truthy Json.null = false ∧
    envRu.lib (.str "other") (.num 1) = .notInstalled ∧
    (get_area_direct envRu (.str "full") (.num 1)).fst =
      .obj [("success", .bool true),
            ("data", .obj [("features", .arr [.obj [("type", .str "Feature")]])])] ∧
    (get_area_direct envRu (.str "empty") (.num 1)).fst =
      errObj "No data found for this cadastral number" ∧
    (get_area_direct envRu (.str "other") (.num 1)).fst =
      errObj "rosreestr2coord not installed" :=
  ⟨rfl, rfl, rfl, rfl, rfl,
   (c7_direct_result_shapes envRu (.str "full") (.num 1)).1 _ rfl rfl,
   (c7_direct_result_shapes envRu (.str "empty") (.num 1)).2.1 _ rfl rfl,
   (c7_direct_result_shapes envRu (.str "other") (.num 1)).2.2 rfl⟩

/-- C8: a missing or empty `cadastral_number` makes the single-lookup tool
return the validation error with an empty call trace — no Router, GeoLocator
or fetch-strategy invocation — and likewise a missing or empty
`cadastral_numbers` list for the batch tool. -/
theorem c8_missing_required_arguments (env : Env)
    (arguments : List (String × Json)) :
    ((jget arguments "cadastral_number" = none ∨
      jget arguments "cadastral_number" = some (.str "")) →
      call_tool env "get_cadastral_coordinates" arguments =
        (errObj "cadastral_number is required", [])) ∧
    ((jget arguments "cadastral_numbers" = none ∨
      jget arguments "cadastral_numbers" = some (.arr [])) →
      call_tool env "batch_get_cadastral_coordinates" arguments =
        (errObj "cadastral_numbers array is required", [])) := by
  constructor
  · intro h
    unfold call_tool
    rw [if_pos rfl]
    have hd : jgetD arguments "cadastral_number" (.str "") = .str "" := by
      rcases h with h | h <;> simp [jgetD, h]
    rw [hd]
    rfl
  · intro h
    unfold call_tool
    rw [if_neg (by decide), if_pos rfl]
    have hd : jgetD arguments "cadastral_numbers" (.arr []) = .arr [] := by
      rcases h with h | h <;> simp [jgetD, h]
    rw [hd]
    rfl

/-- C8 witness: both tools called with no arguments at all. -/
theorem c8_missing_required_arguments_witness :
    jget [] "cadastral_number" = none ∧
    jget [] "cadastral_numbers" = none ∧
    call_tool envRu "get_cadastral_coordinates" [] =
      (errObj "cadastral_number is required", []) ∧
    call_tool envRu "batch_get_cadastral_coordinates" [] =
      (errObj "cadastral_numbers array is required", []) :=
  ⟨rfl, rfl,
   (c8_missing_required_arguments envRu []).1 (.inl rfl),
   (c8_missing_required_arguments envRu []).2 (.inl rfl)⟩

/-- Case analysis of `check_ip_location`: the payload is a structured error
value, or the lookup resolved to a dict with a string `country_code` and the
payload is the LocationInfo dict with `is_russian` and its negation
`will_use_api`. -/
theorem check_ip_location_cases (geo : GeoOutcome) :
    isErrorValue (check_ip_location geo) = true ∨
    ∃ kvs cc, geo = .ok (.obj kvs) ∧
      jgetD kvs "country_code" (.str "") = .str cc ∧
      check_ip_location geo =
        .obj [("ip", jgetD kvs "ip" .null),
              ("country", jgetD kvs "country_name" .null),
              ("country_code", jgetD kvs "country_code" .null),
              ("city", jgetD kvs "city" .null),
              ("is_russian", .bool (decide (pyUpper cc = "RU"))),
              ("will_use_api", .bool (!decide (pyUpper cc = "RU")))] := by
  cases geo with
  | fail msg => exact .inl rfl
  | ok data =>
    cases data with
    | obj kvs =>
      unfold check_ip_location
      dsimp only
      cases hc : jgetD kvs "country_code" (.str "") with
      | str cc => exact .inr ⟨kvs, cc, rfl, hc, rfl⟩
      | null => exact .inl rfl
      | bool b => exact .inl rfl
      | num n => exact .inl rfl
      | arr xs => exact .inl rfl
      | obj kvs₂ => exact .inl rfl
    | null => exact .inl rfl
    | bool b => exact .inl rfl
    | num n => exact .inl rfl
    | str s => exact .inl rfl
    | arr xs => exact .inl rfl

/-- C9: every successful `check_ip_location` payload carries a boolean
`is_russian` and a `will_use_api` equal to its logical negation; and when
the geolocation service reports a `country_code` whose case-normalized form
is `"RU"`, `is_russian` is `true` and `will_use_api` is `false`. -/
theorem c9_will_use_api_negates_membership (geo : GeoOutcome) :
    (isErrorValue (check_ip_location geo) = false →
      ∃ r : Bool, jsget (check_ip_location geo) "is_russian" = .bool r ∧
        jsget (check_ip_location geo) "will_use_api" = .bool (!r)) ∧
    (∀ kvs cc, geo = .ok (.obj kvs) →
      jgetD kvs "country_code" (.str "") = .str cc → pyUpper cc = "RU" →
      jsget (check_ip_location geo) "is_russian" = .bool true ∧
      jsget (check_ip_location geo) "will_use_api" = .bool false) := by
  constructor
  · intro hco
    rcases check_ip_location_cases geo with herr | ⟨kvs, cc, _, _, hobj⟩
    · rw [herr] at hco
      cases hco
    · rw [hobj]
      exact ⟨decide (pyUpper cc = "RU"), rfl, rfl⟩
  · intro kvs cc hgeo hcc hru
    subst hgeo
    have hobj : check_ip_location (.ok (.obj kvs)) =
        .obj [("ip", jgetD kvs "ip" .null),
              ("country", jgetD kvs "country_name" .null),
              ("country_code", jgetD kvs "country_code" .null),
              ("city", jgetD kvs "city" .null),
              ("is_russian", .bool (decide (pyUpper cc = "RU"))),
              ("will_use_api", .bool (!decide (pyUpper cc = "RU")))] := by
      unfold check_ip_location
      dsimp only
      rw [hcc]
    have hd : decide (pyUpper cc = "RU") = true := decide_eq_true hru
    constructor
    · rw [hobj]
      show Json.bool (decide (pyUpper cc = "RU")) = Json.bool true
      rw [hd]
    · rw [hobj]
      show Json.bool (!decide (pyUpper cc = "RU")) = Json.bool false
      rw [hd]
      rfl

/-- C9 witness: the geolocation service reporting the lower-case code
`"ru"`. -/
theorem c9_will_use_api_negates_membership_witness :
    isErrorValue (check_ip_location envRu.geo) = false ∧
    (∃ r : Bool, jsget (check_ip_location envRu.geo) "is_russian" = .bool r ∧
       jsget (check_ip_location envRu.geo) "will_use_api" = .bool (!r)) ∧
    envRu.geo = .ok (.obj [("country_code", .str "ru"), ("ip", .str "5.18.0.1"),
      ("country_name", .str "Russia"), ("city", .str "Moscow")]) ∧
    pyUpper "ru" = "RU" ∧
    jsget (check_ip_location envRu.geo) "is_russian" = .bool true ∧
    jsget (check_ip_location envRu.geo) "will_use_api" = .bool false :=
  ⟨rfl, (c9_will_use_api_negates_membership envRu.geo).1 rfl, rfl, rfl,
   ((c9_will_use_api_negates_membership envRu.geo).2 _ "ru" rfl rfl rfl).1,
   ((c9_will_use_api_negates_membership envRu.geo).2 _ "ru" rfl rfl rfl).2⟩

/-- C10: a successful DirectLibrary result carries a `data` key and no
`geojson` key; consequently, when the geolocation check reports the
designated region — so that every batch item routes to the direct strategy —
the batch FeatureCollection is empty, whatever `success_count` is. -/
theorem c10_direct_strategy_no_features (env : Env) (cn aty : Json)
    (cns : List Json) :
    (truthy (jsget (get_area_direct env cn aty).fst "success") = true →
      hasKey (get_area_direct env cn aty).fst "data" = true ∧
      hasKey (get_area_direct env cn aty).fst "geojson" = false) ∧
    (is_russian_ip env.geo = true → cns ≠ [] →
      jsget (jsget (call_tool env "batch_get_cadastral_coordinates"
          [("cadastral_numbers", .arr cns), ("area_type", aty)]).fst
        "geojson") "features" = .arr []) := by
  constructor
  · unfold get_area_direct
    cases hl : env.lib cn aty with
    | notInstalled => intro hs; cases hs
    | exn msg => intro hs; cases hs
    | ok f =>
      dsimp only
      by_cases ht : truthy f = true
      · rw [if_pos ht]
        intro _
        exact ⟨rfl, rfl⟩
      · rw [if_neg ht]
        intro hs
        cases hs
  · intro hr hne
    rw [call_tool_batch_eq env cns aty hne]
    show Json.arr ((cns.map fun cn₂ => (get_area env cn₂ aty false).fst).filterMap
      fun r =>
        if truthy (jsget r "success") && truthy (jsget r "geojson") then
          some (jsget r "geojson")
        else none) = .arr []
    congr 1
    refine List.filterMap_eq_nil_iff.mpr ?_
    intro r hrmem
    obtain ⟨cn₂, _, rfl⟩ := List.mem_map.mp hrmem
    have hdir : (get_area env cn₂ aty false).fst =
        (get_area_direct env cn₂ aty).fst := by
      unfold get_area
      rw [if_neg (by simp), if_pos hr]
    rw [hdir, get_area_direct_geojson_falsy env cn₂ aty, Bool.and_false]
    rfl

/-- C10 witness: the designated-region environment with one identifier whose
direct lookup succeeds. -/
theorem c10_direct_strategy_no_features_witness :
    truthy (jsget (get_area_direct envRu (.str "full") (.num 1)).fst
      "success") = true ∧
    is_russian_ip envRu.geo = true ∧
    ([Json.str "full"] ≠ ([] : List Json)) ∧
    (hasKey (get_area_direct envRu (.str "full") (.num 1)).fst "data" = true ∧
     hasKey (get_area_direct envRu (.str "full") (.num 1)).fst "geojson" = false) ∧
    jsget (jsget (call_tool envRu "batch_get_cadastral_coordinates"
        [("cadastral_numbers", .arr [.str "full"]), ("area_type", .num 1)]).fst
      "geojson") "features" = .arr [] :=
  ⟨rfl, rfl, by simp,
   (c10_direct_strategy_no_features envRu (.str "full") (.num 1) [.str "full"]).1 rfl,
   (c10_direct_strategy_no_features envRu (.str "full") (.num 1) [.str "full"]).2
     rfl (by simp)⟩
